import Mathlib

/-
Verification development for the arcin-infinitas configuration tool
(src/main.py).  The Python program is shallowly embedded: the 60-byte
configuration codec (struct format STRUCT_FMT_EX with the Windows/x86
native sizes the tool runs under: little-endian, 4-byte unsigned long),
the flag-translation helpers of the GUI layer, and the device read/write
session protocol.  Exceptions of the Python code are modelled by Option
results and by explicit success flags on the modelled transport.
-/

/-- ArcinConfig namedtuple (src/main.py lines 13-25).  `label` and
`keycodes` are byte sequences (`label` is the UTF-8 encoding of the GUI
string, or the raw 12 wire bytes after a decode); signed struct fields
(`b` format) are `Int`, unsigned ones `Nat`. -/
structure ArcinConfig where
  label : List Nat
  flags : Nat
  qe1_sens : Int
  qe2_sens : Int
  debounce_ticks : Nat
  keycodes : List Nat
  remap_start_sel : Nat
  remap_b8_b9 : Nat
  rgb_flags : Nat
  rgb_red : Nat
  rgb_green : Nat
  rgb_blue : Nat
  rgb_darkness : Nat
  rgb_red_2 : Nat
  rgb_green_2 : Nat
  rgb_blue_2 : Nat
  rgb_red_3 : Nat
  rgb_green_3 : Nat
  rgb_blue_3 : Nat
  rgb_mode : Nat
  rgb_num_leds : Nat
  rgb_idle_speed : Nat
  rgb_idle_brightness : Nat
  rgb_tt_speed : Int
  rgb_mode_options : Nat
  deriving DecidableEq

/-- Flag constants, src/main.py lines 228-242. -/
def ARCIN_CONFIG_FLAG_SEL_MULTI_TAP : Nat := 1 <<< 0

def ARCIN_CONFIG_FLAG_INVERT_QE1 : Nat := 1 <<< 1

def ARCIN_CONFIG_FLAG_DIGITAL_TT_ENABLE : Nat := 1 <<< 3

def ARCIN_CONFIG_FLAG_DEBOUNCE : Nat := 1 <<< 4

def ARCIN_CONFIG_FLAG_250HZ_MODE : Nat := 1 <<< 5

def ARCIN_CONFIG_FLAG_ANALOG_TT_FORCE_ENABLE : Nat := 1 <<< 6

def ARCIN_CONFIG_FLAG_KEYBOARD_ENABLE : Nat := 1 <<< 7

def ARCIN_CONFIG_FLAG_JOYINPUT_DISABLE : Nat := 1 <<< 8

def ARCIN_CONFIG_FLAG_MODE_SWITCHING_ENABLE : Nat := 1 <<< 9

def ARCIN_CONFIG_FLAG_LED_OFF : Nat := 1 <<< 10

def ARCIN_CONFIG_FLAG_TT_LED_REACTIVE : Nat := 1 <<< 11

def ARCIN_CONFIG_FLAG_TT_LED_HID : Nat := 1 <<< 12

def ARCIN_CONFIG_FLAG_WS2812B : Nat := 1 <<< 13

/-- TT_OPTIONS choice list, src/main.py lines 70-74. -/
def TT_OPTIONS : List String :=
  ["Analog only (Infinitas)", "Digital only (LR2)", "Both analog and digital"]

/-- INPUT_MODE_OPTIONS choice list, src/main.py lines 108-112. -/
def INPUT_MODE_OPTIONS : List String :=
  ["Controller only (IIDX, BMS)", "Keyboard only (DJMAX)", "Both controller and keyboard"]

/-- LED_OPTIONS choice list, src/main.py lines 114-118. -/
def LED_OPTIONS : List String :=
  ["Default", "React to QE1 turntable", "HID-controlled"]

/-- Turntable-mode selection index computed when populating the GUI from a
decoded record, src/main.py lines 832-838 (a Python `and` of two masked
flag tests is truthy exactly when both masks are nonzero). -/
def qe1_tt_selection (flags : Nat) : Nat :=
  if flags &&& ARCIN_CONFIG_FLAG_DIGITAL_TT_ENABLE ≠ 0 ∧
      flags &&& ARCIN_CONFIG_FLAG_ANALOG_TT_FORCE_ENABLE ≠ 0 then 2
  else if flags &&& ARCIN_CONFIG_FLAG_DIGITAL_TT_ENABLE ≠ 0 then 1
  else 0

/-- Input-mode selection index, src/main.py lines 840-846. -/
def input_mode_selection (flags : Nat) : Nat :=
  if flags &&& ARCIN_CONFIG_FLAG_KEYBOARD_ENABLE ≠ 0 ∧
      flags &&& ARCIN_CONFIG_FLAG_JOYINPUT_DISABLE ≠ 0 then 1
  else if flags &&& ARCIN_CONFIG_FLAG_KEYBOARD_ENABLE ≠ 0 then 2
  else 0

/-- LED-mode selection index, src/main.py lines 848-853. -/
def led_mode_selection (flags : Nat) : Nat :=
  if flags &&& ARCIN_CONFIG_FLAG_TT_LED_REACTIVE ≠ 0 then 1
  else if flags &&& ARCIN_CONFIG_FLAG_TT_LED_HID ≠ 0 then 2
  else 0

/-- SENS_OPTIONS table, src/main.py lines 76-92, in insertion order. -/
def SENS_OPTIONS : List (String × Int) :=
  [("1:1", 0), ("1:2", -2), ("1:3", -3), ("1:4", -4), ("1:6", -6), ("1:8", -8),
   ("1:11", -11), ("1:16", -16), ("2:1", 2), ("3:1", 3), ("4:1", 4), ("6:1", 6),
   ("8:1", 8), ("11:1", 11), ("16:1", 16)]

/-- Sensitivity encoding used by the GUI extraction path, src/main.py
lines 738-741: look the ratio string up in SENS_OPTIONS, defaulting to -4. -/
def sens_value_of_string (s : String) : Int :=
  match SENS_OPTIONS.find? (fun p => p.1 == s) with
  | some p => p.2
  | none => -4

/-- Linear scan of src/main.py lines 857-861: `index` starts at -4 and is
replaced by the enumeration position of the first matching value; the loop
breaks on the first match.  If no value matches, the initial -4 survives. -/
def sens_index_scan (q : Int) : Nat → List Int → Int
  | _, [] => -4
  | i, v :: rest => if q = v then (i : Int) else sens_index_scan q (i + 1) rest

/-- Selection index passed to `self.qe1_sens_ctrl.Select`, src/main.py
lines 857-862. -/
def qe1_sens_selection (q : Int) : Int :=
  sens_index_scan q 0 (SENS_OPTIONS.map Prod.snd)

/-- Position of a ratio string inside SENS_OPTIONS (the selection index a
GUI Select call must receive to display that ratio). -/
def sens_entry_position (s : String) : Option Nat :=
  (SENS_OPTIONS.map Prod.fst).indexOf? s

/-- DEFAULT_EFFECTOR_MAPPING, src/main.py lines 101-106. -/
def DEFAULT_EFFECTOR_MAPPING : List Nat := [1, 2, 3, 4]

/-- Remap nibble packing, src/main.py lines 748-749:
`(remap[high] << 4) | remap[low]`. -/
def pack_remap (hi lo : Nat) : Nat := (hi <<< 4) ||| lo

/-- High-nibble extraction on decode, src/main.py lines 868-871. -/
def unpack_remap_high (b : Nat) : Nat := (b >>> 4) &&& 0xF

/-- Low-nibble extraction on decode, src/main.py lines 868-871. -/
def unpack_remap_low (b : Nat) : Nat := b &&& 0xF

/-- Zero-substitution of src/main.py lines 1172-1175: a decoded effector
id of 0 at position `i` is replaced by DEFAULT_EFFECTOR_MAPPING[i]. -/
def resolve_remap (i : Nat) (v : Nat) : Nat :=
  if v = 0 then DEFAULT_EFFECTOR_MAPPING.getD i 0 else v

/-- mode_options packing, src/main.py lines 1427-1428. -/
def pack_mode_options (palette multiplicity : Nat) : Nat :=
  (palette &&& 0x1F) ||| (multiplicity <<< 5)

/-- Palette unpacking, src/main.py line 1387. -/
def unpack_palette (m : Nat) : Nat := m &&& 0x1F

/-- Multiplicity unpacking, src/main.py line 1388. -/
def unpack_multiplicity (m : Nat) : Nat := (m >>> 5) &&& 0x7

/-- Truncate-or-pad of the struct `ns` format: keep at most `n` bytes and
zero-pad up to exactly `n` (Python struct.pack documents exactly this for
the `s` code; the save path additionally slices to the same bound,
src/main.py lines 293 and 298, which the `take` already covers). -/
def padTrunc (n : Nat) (l : List Nat) : List Nat :=
  l.take n ++ List.replicate (n - l.length) 0

/-- Two's-complement byte written by the struct `b` format. -/
def encodeSByte (i : Int) : Nat := (i % 256).toNat

/-- Signed read of one byte performed by struct.unpack for format `b`. -/
def decodeSByte (b : Nat) : Int :=
  if b < 128 then (b : Int) else (b : Int) - 256

/-- Little-endian 4-byte encoding of the struct `L` format (uint32 on the
Windows/x86 platform the tool targets). -/
def le32 (n : Nat) : List Nat :=
  [n % 256, n / 256 % 256, n / 65536 % 256, n / 16777216 % 256]

/-- Range checks struct.pack performs on the numeric fields of
STRUCT_FMT_EX: `L` needs 0 ≤ v < 2^32, `b` needs -128 ≤ v ≤ 127, `B`
needs 0 ≤ v < 256.  The two `s` fields never fail (they truncate or pad). -/
def packOk (c : ArcinConfig) : Bool :=
  decide (c.flags < 4294967296) &&
  decide (-128 ≤ c.qe1_sens) && decide (c.qe1_sens ≤ 127) &&
  decide (-128 ≤ c.qe2_sens) && decide (c.qe2_sens ≤ 127) &&
  decide (c.debounce_ticks < 256) &&
  decide (c.remap_start_sel < 256) && decide (c.remap_b8_b9 < 256) &&
  decide (c.rgb_flags < 256) && decide (c.rgb_red < 256) &&
  decide (c.rgb_green < 256) && decide (c.rgb_blue < 256) &&
  decide (c.rgb_darkness < 256) &&
  decide (c.rgb_red_2 < 256) && decide (c.rgb_green_2 < 256) &&
  decide (c.rgb_blue_2 < 256) &&
  decide (c.rgb_red_3 < 256) && decide (c.rgb_green_3 < 256) &&
  decide (c.rgb_blue_3 < 256) &&
  decide (c.rgb_mode < 256) && decide (c.rgb_num_leds < 256) &&
  decide (c.rgb_idle_speed < 256) && decide (c.rgb_idle_brightness < 256) &&
  decide (-128 ≤ c.rgb_tt_speed) && decide (c.rgb_tt_speed ≤ 127) &&
  decide (c.rgb_mode_options < 256)

/-- Encoder: the struct.pack call of save_to_device, src/main.py lines
291-318, laying the record out per STRUCT_FMT_EX (lines 45-68): 12-byte
label, uint32 flags, two signed sensitivity bytes, one reserved zero,
debounce byte, 16-byte keycodes, two remap bytes, two reserved zeros, the
seventeen RGB bytes, three reserved zeros.  `none` models the struct.error
caught at line 319 and reported as "Format error". -/
def pack_conf (c : ArcinConfig) : Option (List Nat) :=
  if packOk c then
    some (padTrunc 12 c.label ++ le32 c.flags ++
      [encodeSByte c.qe1_sens, encodeSByte c.qe2_sens, 0, c.debounce_ticks] ++
      padTrunc 16 c.keycodes ++
      [c.remap_start_sel, c.remap_b8_b9, 0, 0,
       c.rgb_flags, c.rgb_red, c.rgb_green, c.rgb_blue, c.rgb_darkness,
       c.rgb_red_2, c.rgb_green_2, c.rgb_blue_2,
       c.rgb_red_3, c.rgb_green_3, c.rgb_blue_3,
       c.rgb_mode, c.rgb_num_leds, c.rgb_idle_speed, c.rgb_idle_brightness,
       encodeSByte c.rgb_tt_speed, c.rgb_mode_options, 0, 0, 0])
  else none

/-- Decoder: parse_device, src/main.py lines 281-287.  The report bytes
are truncated to calcsize(STRUCT_FMT_EX) = 60; struct.unpack raises (here:
`none`) when fewer than 60 bytes are available, and otherwise reads the
fields at their fixed offsets, returning the raw 12-byte label and 16-byte
keycodes slices verbatim. -/
def parse_device (data : List Nat) : Option ArcinConfig :=
  if data.length < 60 then none
  else some
    { label := data.take 12
      flags := data.getD 12 0 + 256 * data.getD 13 0 + 65536 * data.getD 14 0 +
        16777216 * data.getD 15 0
      qe1_sens := decodeSByte (data.getD 16 0)
      qe2_sens := decodeSByte (data.getD 17 0)
      debounce_ticks := data.getD 19 0
      keycodes := (data.drop 20).take 16
      remap_start_sel := data.getD 36 0
      remap_b8_b9 := data.getD 37 0
      rgb_flags := data.getD 40 0
      rgb_red := data.getD 41 0
      rgb_green := data.getD 42 0
      rgb_blue := data.getD 43 0
      rgb_darkness := data.getD 44 0
      rgb_red_2 := data.getD 45 0
      rgb_green_2 := data.getD 46 0
      rgb_blue_2 := data.getD 47 0
      rgb_red_3 := data.getD 48 0
      rgb_green_3 := data.getD 49 0
      rgb_blue_3 := data.getD 50 0
      rgb_mode := data.getD 51 0
      rgb_num_leds := data.getD 52 0
      rgb_idle_speed := data.getD 53 0
      rgb_idle_brightness := data.getD 54 0
      rgb_tt_speed := decodeSByte (data.getD 55 0)
      rgb_mode_options := data.getD 56 0 }

/-- Transport model for save_to_device: whether `device.open()` succeeds
and whether each of the two `send_feature_report` calls succeeds. -/
structure WriteDevice where
  openOk : Bool
  send1Ok : Bool
  send2Ok : Bool
  deriving DecidableEq

/-- Observable outcome of a write session: the returned (ok, message)
pair, the feature reports successfully delivered in order, whether the
open succeeded, and how many times close ran. -/
structure WriteTrace where
  ok : Bool
  message : String
  sent : List (List Nat)
  opened : Bool
  closes : Nat
  deriving DecidableEq

/-- The 64-byte config feature report built at src/main.py lines 324-332:
a [0x00]*64 buffer whose bytes 0-3 become 0xC0, 0x00, 0x3C, 0x00 and whose
slice starting at 4 is replaced by the packed payload. -/
def config_report (packed : List Nat) : List Nat :=
  [0xc0, 0x00, 0x3c, 0x00] ++ packed ++ List.replicate (60 - packed.length) 0

/-- save_to_device, src/main.py lines 289-348.  A struct.error returns
("Format error") before any device I/O; otherwise the session opens,
sends the config report, sends the restart report [0xB0, 0x20] only if
the first send did not raise, returns ("Failed to write to device") if
open or either send raised, and the `finally` closes exactly once. -/
def save_to_device (dev : WriteDevice) (conf : ArcinConfig) : WriteTrace :=
  match pack_conf conf with
  | none =>
    { ok := false, message := "Format error", sent := [], opened := false, closes := 0 }
  | some packed =>
    if dev.openOk then
      if dev.send1Ok then
        if dev.send2Ok then
          { ok := true, message := "Success",
            sent := [config_report packed, [0xb0, 0x20]], opened := true, closes := 1 }
        else
          { ok := false, message := "Failed to write to device",
            sent := [config_report packed], opened := true, closes := 1 }
      else
        { ok := false, message := "Failed to write to device",
          sent := [], opened := true, closes := 1 }
    else
      { ok := false, message := "Failed to write to device",
        sent := [], opened := false, closes := 1 }

/-- One feature report of the modelled device: its report id and the
config-segment bytes `report.get()` plus the segment lookup deliver;
`none` models an exception while fetching or addressing the report. -/
structure FeatureReport where
  id : Nat
  data : Option (List Nat)
  deriving DecidableEq

/-- Transport model for load_from_device: whether `device.open()`
succeeds, and the feature reports the device enumerates. -/
structure ReadDevice where
  openOk : Bool
  reports : List FeatureReport
  deriving DecidableEq

/-- Observable outcome of a read session. -/
structure ReadTrace where
  result : Option ArcinConfig
  closes : Nat
  deriving DecidableEq

/-- Does handling this report raise inside the loop of load_from_device
(fetch failure, or parse_device rejecting the payload)? -/
def report_raises (r : FeatureReport) : Bool :=
  match r.data with
  | none => true
  | some bytes => (parse_device bytes).isNone

/-- The report loop of load_from_device, src/main.py lines 262-271: each
report with id 0xC0 is fetched and parsed, overwriting `conf`; the outer
`none` models an exception escaping to the `except` clause. -/
def process_reports : Option ArcinConfig → List FeatureReport → Option (Option ArcinConfig)
  | conf, [] => some conf
  | conf, r :: rest =>
    if r.id = 0xc0 then
      match r.data with
      | none => none
      | some bytes =>
        match parse_device bytes with
        | none => none
        | some c => process_reports (some c) rest
    else process_reports conf rest

/-- load_from_device, src/main.py lines 258-279: open, scan the feature
reports, return the last successfully parsed 0xC0 config (or none), with
any exception mapped to a None result; the `finally` closes exactly once
on every path. -/
def load_from_device (dev : ReadDevice) : ReadTrace :=
  if dev.openOk then
    match process_reports none dev.reports with
    | none => { result := none, closes := 1 }
    | some conf => { result := conf, closes := 1 }
  else { result := none, closes := 1 }

/-- All-zero configuration record (empty label and keycodes). -/
def confZero : ArcinConfig :=
  { label := [], flags := 0, qe1_sens := 0, qe2_sens := 0, debounce_ticks := 0,
    keycodes := [], remap_start_sel := 0, remap_b8_b9 := 0, rgb_flags := 0,
    rgb_red := 0, rgb_green := 0, rgb_blue := 0, rgb_darkness := 0,
    rgb_red_2 := 0, rgb_green_2 := 0, rgb_blue_2 := 0,
    rgb_red_3 := 0, rgb_green_3 := 0, rgb_blue_3 := 0,
    rgb_mode := 0, rgb_num_leds := 0, rgb_idle_speed := 0,
    rgb_idle_brightness := 0, rgb_tt_speed := 0, rgb_mode_options := 0 }

/-- Record whose label is exactly 12 bytes ("TEST" zero-padded) and whose
keycodes are exactly 16 bytes, with in-range numeric fields. -/
def confExact : ArcinConfig :=
  { label := [84, 69, 83, 84, 0, 0, 0, 0, 0, 0, 0, 0], flags := 305419896,
    qe1_sens := -4, qe2_sens := 0, debounce_ticks := 2,
    keycodes := [4, 5, 6, 7, 8, 9, 10, 11, 12, 13, 14, 15, 16, 0, 0, 0],
    remap_start_sel := 18, remap_b8_b9 := 52, rgb_flags := 1,
    rgb_red := 255, rgb_green := 128, rgb_blue := 0, rgb_darkness := 10,
    rgb_red_2 := 1, rgb_green_2 := 2, rgb_blue_2 := 3,
    rgb_red_3 := 4, rgb_green_3 := 5, rgb_blue_3 := 6,
    rgb_mode := 7, rgb_num_leds := 12, rgb_idle_speed := 100,
    rgb_idle_brightness := 50, rgb_tt_speed := -100, rgb_mode_options := 161 }

/-- Record with a 13-byte label (thirteen 0x41 bytes) and otherwise
in-range fields. -/
def confLongLabel : ArcinConfig :=
  { confZero with label := List.replicate 13 65 }

/-- Record whose flags value does not fit the 4-byte `L` field, so
struct.pack raises and the save path reports "Format error". -/
def confBadFlags : ArcinConfig :=
  { confZero with flags := 4294967296 }

/-- The record parse_device produces from a buffer of sixty 0x07 bytes. -/
def confSeven : ArcinConfig :=
  { label := List.replicate 12 7, flags := 117901063, qe1_sens := 7, qe2_sens := 7,
    debounce_ticks := 7, keycodes := List.replicate 16 7, remap_start_sel := 7,
    remap_b8_b9 := 7, rgb_flags := 7, rgb_red := 7, rgb_green := 7, rgb_blue := 7,
    rgb_darkness := 7, rgb_red_2 := 7, rgb_green_2 := 7, rgb_blue_2 := 7,
    rgb_red_3 := 7, rgb_green_3 := 7, rgb_blue_3 := 7, rgb_mode := 7,
    rgb_num_leds := 7, rgb_idle_speed := 7, rgb_idle_brightness := 7,
    rgb_tt_speed := 7, rgb_mode_options := 7 }

/-- Fully functional write transport. -/
def devAllOk : WriteDevice := { openOk := true, send1Ok := true, send2Ok := true }

/-- Write transport whose second send (the restart report) fails. -/
def devSend2Fails : WriteDevice := { openOk := true, send1Ok := true, send2Ok := false }

/-- Read transport whose open raises. -/
def rdevOpenFails : ReadDevice := { openOk := false, reports := [] }

/-- Read transport that enumerates one 0xC0 report carrying only 3 bytes,
so parse_device raises. -/
def rdevShortReport : ReadDevice :=
  { openOk := true, reports := [{ id := 0xc0, data := some [1, 2, 3] }] }

/-- Helper: two's-complement byte encode/decode round trip on the signed
range struct.pack accepts for the `b` format. -/
theorem sbyte_roundtrip (i : Int) (h1 : -128 ≤ i) (h2 : i ≤ 127) :
    decodeSByte (encodeSByte i) = i := by
  unfold encodeSByte decodeSByte
  split <;> omega

/-- Helper: a list of length twelve is a twelve-element literal. -/
theorem exists_len12 (l : List Nat) (h : l.length = 12) :
    ∃ a0 a1 a2 a3 a4 a5 a6 a7 a8 a9 a10 a11,
      l = [a0, a1, a2, a3, a4, a5, a6, a7, a8, a9, a10, a11] := by
  match l, h with
  | [a0, a1, a2, a3, a4, a5, a6, a7, a8, a9, a10, a11], _ =>
    exact ⟨a0, a1, a2, a3, a4, a5, a6, a7, a8, a9, a10, a11, rfl⟩

/-- Helper: a list of length sixteen is a sixteen-element literal. -/
theorem exists_len16 (l : List Nat) (h : l.length = 16) :
    ∃ a0 a1 a2 a3 a4 a5 a6 a7 a8 a9 a10 a11 a12 a13 a14 a15,
      l = [a0, a1, a2, a3, a4, a5, a6, a7, a8, a9, a10, a11, a12, a13, a14, a15] := by
  match l, h with
  | [a0, a1, a2, a3, a4, a5, a6, a7, a8, a9, a10, a11, a12, a13, a14, a15], _ =>
    exact ⟨a0, a1, a2, a3, a4, a5, a6, a7, a8, a9, a10, a11, a12, a13, a14, a15, rfl⟩

/-- Helper: a successfully packed payload has exactly 60 bytes. -/
theorem pack_conf_length (c : ArcinConfig) (p : List Nat) (h : pack_conf c = some p) :
    p.length = 60 := by
  unfold pack_conf at h
  split at h
  · injection h with h
    subst h
    simp [padTrunc, le32, List.length_append, List.length_take, List.length_replicate]
    omega
  · simp at h

/-- Helper: pack_conf on a record with explicit 12-byte label and 16-byte
keycodes produces the explicit 60-byte wire list. -/
theorem pack_cons_explicit {a0 a1 a2 a3 a4 a5 a6 a7 a8 a9 a10 a11 : Nat}
    {k0 k1 k2 k3 k4 k5 k6 k7 k8 k9 k10 k11 k12 k13 k14 k15 : Nat}
    {fl : Nat} {q1 q2 rts : Int}
    {db rss rbb rf rr rg rb rd rr2 rg2 rb2 rr3 rg3 rb3 rm rn ris rib rmo : Nat}
    (hv : packOk
      ⟨[a0, a1, a2, a3, a4, a5, a6, a7, a8, a9, a10, a11], fl, q1, q2, db,
       [k0, k1, k2, k3, k4, k5, k6, k7, k8, k9, k10, k11, k12, k13, k14, k15],
       rss, rbb, rf, rr, rg, rb, rd, rr2, rg2, rb2, rr3, rg3, rb3, rm, rn,
       ris, rib, rts, rmo⟩ = true) :
    pack_conf
      ⟨[a0, a1, a2, a3, a4, a5, a6, a7, a8, a9, a10, a11], fl, q1, q2, db,
       [k0, k1, k2, k3, k4, k5, k6, k7, k8, k9, k10, k11, k12, k13, k14, k15],
       rss, rbb, rf, rr, rg, rb, rd, rr2, rg2, rb2, rr3, rg3, rb3, rm, rn,
       ris, rib, rts, rmo⟩ =
    some [a0, a1, a2, a3, a4, a5, a6, a7, a8, a9, a10, a11,
      fl % 256, fl / 256 % 256, fl / 65536 % 256, fl / 16777216 % 256,
      encodeSByte q1, encodeSByte q2, 0, db,
      k0, k1, k2, k3, k4, k5, k6, k7, k8, k9, k10, k11, k12, k13, k14, k15,
      rss, rbb, 0, 0, rf, rr, rg, rb, rd, rr2, rg2, rb2, rr3, rg3, rb3,
      rm, rn, ris, rib, encodeSByte rts, rmo, 0, 0, 0] := by
  unfold pack_conf
  rw [if_pos hv]
  rfl

/-- Helper: parse_device on an explicit 60-byte list reads each field at
its STRUCT_FMT_EX offset. -/
theorem parse_cons_explicit
    {x0 x1 x2 x3 x4 x5 x6 x7 x8 x9 x10 x11 x12 x13 x14 x15 x16 x17 x18 x19
     x20 x21 x22 x23 x24 x25 x26 x27 x28 x29 x30 x31 x32 x33 x34 x35 x36 x37
     x38 x39 x40 x41 x42 x43 x44 x45 x46 x47 x48 x49 x50 x51 x52 x53 x54 x55
     x56 x57 x58 x59 : Nat} :
    parse_device [x0, x1, x2, x3, x4, x5, x6, x7, x8, x9, x10, x11, x12, x13,
      x14, x15, x16, x17, x18, x19, x20, x21, x22, x23, x24, x25, x26, x27,
      x28, x29, x30, x31, x32, x33, x34, x35, x36, x37, x38, x39, x40, x41,
      x42, x43, x44, x45, x46, x47, x48, x49, x50, x51, x52, x53, x54, x55,
      x56, x57, x58, x59] =
    some ⟨[x0, x1, x2, x3, x4, x5, x6, x7, x8, x9, x10, x11],
      x12 + 256 * x13 + 65536 * x14 + 16777216 * x15,
      decodeSByte x16, decodeSByte x17, x19,
      [x20, x21, x22, x23, x24, x25, x26, x27, x28, x29, x30, x31, x32, x33,
       x34, x35],
      x36, x37, x40, x41, x42, x43, x44, x45, x46, x47, x48, x49, x50, x51,
      x52, x53, x54, decodeSByte x55, x56⟩ := rfl

/-- Helper: getD commutes with take below the bound. -/
theorem getD_take_lt (l : List Nat) : ∀ n i, i < n → (l.take n).getD i 0 = l.getD i 0 := by
  induction l with
  | nil => intro n i _; simp
  | cons a t ih =>
    intro n i h
    cases n with
    | zero => omega
    | succ n =>
      cases i with
      | zero => rfl
      | succ i =>
        simpa [List.take_succ_cons, List.getD_cons_succ] using ih n i (by omega)

/-- Helper: a take outside a nested drop-take window can be discarded. -/
theorem take_drop_take (l : List Nat) :
    ∀ m n k, m + k ≤ n → ((l.take n).drop m).take k = (l.drop m).take k := by
  induction l with
  | nil => intro m n k _; simp
  | cons a t ih =>
    intro m n k h
    cases n with
    | zero =>
      have hm : m = 0 := by omega
      have hk : k = 0 := by omega
      subst hm; subst hk; simp
    | succ n =>
      cases m with
      | zero =>
        cases k with
        | zero => simp
        | succ k =>
          have := ih 0 n k (by omega)
          simp only [List.drop_zero] at this
          simp [List.take_succ_cons, this]
      | succ m =>
        simp only [List.take_succ_cons, List.drop_succ_cons]
        exact ih m n k (by omega)

/-- Helper: parse_device only looks at the first 60 bytes. -/
theorem parse_device_take60 (data : List Nat) (h : 60 ≤ data.length) :
    parse_device (data.take 60) = parse_device data := by
  have hlen : (data.take 60).length = 60 := by
    simp [List.length_take]; omega
  unfold parse_device
  rw [hlen]
  rw [if_neg (by omega : ¬ (60 : Nat) < 60), if_neg (by omega : ¬ data.length < 60)]
  have htk : ∀ i : Nat, i < 60 → (data.take 60).getD i 0 = data.getD i 0 :=
    fun i hi => getD_take_lt data 60 i hi
  have h1 : (data.take 60).take 12 = data.take 12 := by rw [List.take_take]; norm_num
  have h2 : ((data.take 60).drop 20).take 16 = (data.drop 20).take 16 :=
    take_drop_take data 20 60 16 (by omega)
  simp only [Option.some.injEq, ArcinConfig.mk.injEq]
  simp [h1, h2, htk]

/-- Helper: padding after truncating to the pad width changes nothing. -/
theorem padTrunc_take (n : Nat) (l : List Nat) :
    padTrunc n (l.take n) = padTrunc n l := by
  unfold padTrunc
  rw [List.take_take]
  simp only [List.length_take]
  congr 2
  · omega
  · omega

/-- Helper: if some enumerated 0xC0 report raises while being fetched or
parsed, the report loop of load_from_device raises. -/
theorem process_reports_none (reports : List FeatureReport) :
    ∀ conf, (∃ r ∈ reports, r.id = 0xc0 ∧ report_raises r = true) →
      process_reports conf reports = none := by
  induction reports with
  | nil => intro conf h; simp at h
  | cons r rest ih =>
    intro conf h
    rcases h with ⟨s, hs, hid, hraise⟩
    rcases List.mem_cons.1 hs with rfl | hmem
    · unfold process_reports
      rw [if_pos hid]
      cases hd : s.data with
      | none => rfl
      | some bytes =>
        have hpn : parse_device bytes = none := by
          have h2 := hraise
          unfold report_raises at h2
          rw [hd] at h2
          simpa using h2
        dsimp only
        simp [hpn]
    · unfold process_reports
      by_cases hid2 : r.id = 0xc0
      · rw [if_pos hid2]
        cases hd : r.data with
        | none => rfl
        | some bytes =>
          dsimp only
          cases hp : parse_device bytes with
          | none => simp [hp]
          | some c =>
            simp only [hp]
            exact ih (some c) ⟨s, hmem, hid, hraise⟩
      · rw [if_neg hid2]
        exact ih conf ⟨s, hmem, hid, hraise⟩

/-- C4: decoding the flags word into the three GUI selections is
deterministic and most-specific-first.  Turntable mode (TT_OPTIONS index):
digital-tt-enable (bit 3) together with analog-tt-force-enable (bit 6)
selects 2 ("Both analog and digital"), else bit 3 alone selects 1
("Digital only (LR2)"), else 0 ("Analog only (Infinitas)").  Input mode
(INPUT_MODE_OPTIONS index): keyboard-enable (bit 7) with
joyinput-disable (bit 8) selects 1 ("Keyboard only (DJMAX)"), else bit 7
alone selects 2 ("Both controller and keyboard"), else 0 ("Controller
only (IIDX, BMS)").  LED mode (LED_OPTIONS index): tt-led-reactive
(bit 11) selects 1 ("React to QE1 turntable"), else tt-led-hid (bit 12)
selects 2 ("HID-controlled"), else 0 ("Default").  Finally, two flag
words agreeing on the two bits of a group decode that group identically,
so bits outside a group never affect it. -/
theorem c4_flag_mode_decode (f g : Nat) :
    (f &&& ARCIN_CONFIG_FLAG_DIGITAL_TT_ENABLE ≠ 0 ∧
        f &&& ARCIN_CONFIG_FLAG_ANALOG_TT_FORCE_ENABLE ≠ 0 →
      qe1_tt_selection f = 2) ∧
    (f &&& ARCIN_CONFIG_FLAG_DIGITAL_TT_ENABLE ≠ 0 ∧
        f &&& ARCIN_CONFIG_FLAG_ANALOG_TT_FORCE_ENABLE = 0 →
      qe1_tt_selection f = 1) ∧
    (f &&& ARCIN_CONFIG_FLAG_DIGITAL_TT_ENABLE = 0 → qe1_tt_selection f = 0) ∧
    (f &&& ARCIN_CONFIG_FLAG_KEYBOARD_ENABLE ≠ 0 ∧
        f &&& ARCIN_CONFIG_FLAG_JOYINPUT_DISABLE ≠ 0 →
      input_mode_selection f = 1) ∧
    (f &&& ARCIN_CONFIG_FLAG_KEYBOARD_ENABLE ≠ 0 ∧
        f &&& ARCIN_CONFIG_FLAG_JOYINPUT_DISABLE = 0 →
      input_mode_selection f = 2) ∧
    (f &&& ARCIN_CONFIG_FLAG_KEYBOARD_ENABLE = 0 → input_mode_selection f = 0) ∧
    (f &&& ARCIN_CONFIG_FLAG_TT_LED_REACTIVE ≠ 0 → led_mode_selection f = 1) ∧
    (f &&& ARCIN_CONFIG_FLAG_TT_LED_REACTIVE = 0 ∧
        f &&& ARCIN_CONFIG_FLAG_TT_LED_HID ≠ 0 →
      led_mode_selection f = 2) ∧
    (f &&& ARCIN_CONFIG_FLAG_TT_LED_REACTIVE = 0 ∧
        f &&& ARCIN_CONFIG_FLAG_TT_LED_HID = 0 →
      led_mode_selection f = 0) ∧
    ((f &&& ARCIN_CONFIG_FLAG_DIGITAL_TT_ENABLE = 0 ↔
        g &&& ARCIN_CONFIG_FLAG_DIGITAL_TT_ENABLE = 0) →
      (f &&& ARCIN_CONFIG_FLAG_ANALOG_TT_FORCE_ENABLE = 0 ↔
        g &&& ARCIN_CONFIG_FLAG_ANALOG_TT_FORCE_ENABLE = 0) →
      qe1_tt_selection f = qe1_tt_selection g) ∧
    ((f &&& ARCIN_CONFIG_FLAG_KEYBOARD_ENABLE = 0 ↔
        g &&& ARCIN_CONFIG_FLAG_KEYBOARD_ENABLE = 0) →
      (f &&& ARCIN_CONFIG_FLAG_JOYINPUT_DISABLE = 0 ↔
        g &&& ARCIN_CONFIG_FLAG_JOYINPUT_DISABLE = 0) →
      input_mode_selection f = input_mode_selection g) ∧
    ((f &&& ARCIN_CONFIG_FLAG_TT_LED_REACTIVE = 0 ↔
        g &&& ARCIN_CONFIG_FLAG_TT_LED_REACTIVE = 0) →
      (f &&& ARCIN_CONFIG_FLAG_TT_LED_HID = 0 ↔
        g &&& ARCIN_CONFIG_FLAG_TT_LED_HID = 0) →
      led_mode_selection f = led_mode_selection g) := by
  refine ⟨?_, ?_, ?_, ?_, ?_, ?_, ?_, ?_, ?_, ?_, ?_, ?_⟩
  all_goals intros
  all_goals simp only [qe1_tt_selection, input_mode_selection, led_mode_selection]
  all_goals split_ifs <;> tauto

/-- C4 witness: flags 72 (bits 3 and 6) decode to turntable mode 2,
flags 384 (bits 7 and 8) to input mode 1, flags 4096 (bit 12) to LED
mode 2. -/
theorem c4_flag_mode_decode_witness :
    qe1_tt_selection 72 = 2 ∧ input_mode_selection 384 = 1 ∧
    led_mode_selection 4096 = 2 :=
  ⟨(c4_flag_mode_decode 72 72).1 (by decide),
   (c4_flag_mode_decode 384 384).2.2.2.1 (by decide),
   (c4_flag_mode_decode 4096 4096).2.2.2.2.2.2.2.1 (by decide)⟩

/-- C5: the SENS_OPTIONS table does map the ratio string "1:4" to the
signed value -4, but the fallback of the decode path is a value/index
confusion: for a raw value with no table entry (such as -5) the scan of
src/main.py lines 857-862 leaves the selection index at its initial -4,
which is an invalid negative listbox index and not the position of the
"1:4" entry — that entry sits at position 3.  The code thus contradicts
its own comment ("1:4 is a reasonable default"). -/
theorem c5_sens_fallback_bug :
    sens_value_of_string "1:4" = -4 ∧
    qe1_sens_selection (-5) = -4 ∧
    sens_entry_position "1:4" = some 3 ∧
    qe1_sens_selection (-5) ≠ ((3 : Nat) : Int) := by
  refine ⟨by decide, by decide, by decide, by decide⟩

/-- C7: packing effector ids (1, 2) gives byte 0x12; decoding 0x12 gives
the pair (1, 2); decoding byte 0x00 substitutes the default mapping
[1, 2, 3, 4], giving (1, 2) for the start/select pair (positions 0, 1)
and (3, 4) for the b8/b9 pair (positions 2, 3); and after the
substitution no decoded effector id at any of the four positions is 0. -/
theorem c7_remap_pack_unpack :
    pack_remap 1 2 = 0x12 ∧
    unpack_remap_high 0x12 = 1 ∧ unpack_remap_low 0x12 = 2 ∧
    resolve_remap 0 (unpack_remap_high 0x00) = 1 ∧
    resolve_remap 1 (unpack_remap_low 0x00) = 2 ∧
    resolve_remap 2 (unpack_remap_high 0x00) = 3 ∧
    resolve_remap 3 (unpack_remap_low 0x00) = 4 ∧
    (∀ i < 4, ∀ v : Nat, resolve_remap i v ≠ 0) := by
  refine ⟨rfl, rfl, rfl, rfl, rfl, rfl, rfl, ?_⟩
  intro i hi v
  unfold resolve_remap
  split
  · interval_cases i <;> decide
  · assumption

/-- C7 witness: a nonzero nibble at position 2 stays nonzero. -/
theorem c7_remap_pack_unpack_witness : resolve_remap 2 9 ≠ 0 :=
  c7_remap_pack_unpack.2.2.2.2.2.2.2 2 (by decide) 9

/-- C8: for every palette index below 32 and multiplicity below 8, the
mode_options byte round-trips both components exactly, and each unpacked
component is unaffected by the other packed component. -/
theorem c8_mode_options_roundtrip :
    ∀ p < 32, ∀ m < 8,
      unpack_palette (pack_mode_options p m) = p ∧
      unpack_multiplicity (pack_mode_options p m) = m ∧
      (∀ q < 32, unpack_multiplicity (pack_mode_options q m) =
        unpack_multiplicity (pack_mode_options p m)) ∧
      (∀ k < 8, unpack_palette (pack_mode_options p k) =
        unpack_palette (pack_mode_options p m)) := by
  decide

/-- C8 witness: palette 21 and multiplicity 5 round-trip. -/
theorem c8_mode_options_roundtrip_witness :
    unpack_palette (pack_mode_options 21 5) = 21 ∧
    unpack_multiplicity (pack_mode_options 21 5) = 5 :=
  ⟨(c8_mode_options_roundtrip 21 (by decide) 5 (by decide)).1,
   (c8_mode_options_roundtrip 21 (by decide) 5 (by decide)).2.1⟩

/-- C2: every successfully packed payload is exactly 60 bytes; a buffer
shorter than 60 bytes makes parse_device fail (struct.error, i.e. no
record); and for buffers of 60 bytes or more the bytes beyond offset 60
are ignored (parsing equals parsing the 60-byte truncation, and always
yields a record). -/
theorem c2_payload_sizes :
    (∀ (c : ArcinConfig) (p : List Nat), pack_conf c = some p → p.length = 60) ∧
    (∀ data : List Nat, data.length < 60 → parse_device data = none) ∧
    (∀ data : List Nat, 60 ≤ data.length →
      (parse_device data).isSome = true ∧
      parse_device data = parse_device (data.take 60)) := by
  refine ⟨pack_conf_length, ?_, ?_⟩
  · intro data h
    unfold parse_device
    rw [if_pos h]
  · intro data h
    constructor
    · unfold parse_device
      rw [if_neg (by omega)]
      rfl
    · exact (parse_device_take60 data h).symm

/-- C2 witness: confZero packs to the sixty-zero payload (length 60), and
a 3-byte buffer is rejected. -/
theorem c2_payload_sizes_witness :
    (List.replicate 60 (0 : Nat)).length = 60 ∧ parse_device [1, 2, 3] = none :=
  ⟨c2_payload_sizes.1 confZero (List.replicate 60 0) (by decide),
   c2_payload_sizes.2.1 [1, 2, 3] (by decide)⟩

/-- C10: every record parse_device returns carries a label of exactly 12
bytes and keycodes of exactly 16 bytes, both equal to the raw wire slices
(zero padding included, nothing stripped). -/
theorem c10_decoded_field_widths (data : List Nat) (c : ArcinConfig)
    (h : parse_device data = some c) :
    c.label.length = 12 ∧ c.keycodes.length = 16 ∧
    c.label = data.take 12 ∧ c.keycodes = (data.drop 20).take 16 := by
  unfold parse_device at h
  by_cases hlen : data.length < 60
  · rw [if_pos hlen] at h
    exact absurd h (by simp)
  · rw [if_neg hlen] at h
    injection h with h
    subst h
    refine ⟨?_, ?_, rfl, rfl⟩
    · simp only [List.length_take]
      omega
    · simp only [List.length_take, List.length_drop]
      omega

/-- C10 witness: parsing sixty 0x07 bytes gives 12-byte label and 16-byte
keycodes equal to the wire slices. -/
theorem c10_decoded_field_widths_witness :
    confSeven.label.length = 12 ∧ confSeven.keycodes.length = 16 ∧
    confSeven.label = (List.replicate 60 7).take 12 ∧
    confSeven.keycodes = ((List.replicate 60 7).drop 20).take 16 :=
  c10_decoded_field_widths (List.replicate 60 7) confSeven (by decide)

/-- C1 is false as stated: confZero has every field within its declared
range (label under 12 bytes, keycodes under 16 bytes, numerics in range),
yet decoding its encoding does not return confZero — the decoder returns
the label and keycodes zero-padded to their full wire widths, not at
their original lengths. -/
theorem c1_roundtrip_counterexample :
    confZero.label.length ≤ 12 ∧ confZero.keycodes.length ≤ 16 ∧
    packOk confZero = true ∧
    (pack_conf confZero).bind parse_device ≠ some confZero := by
  refine ⟨by decide, by decide, by decide, by decide⟩

/-- C1 (amended): decode ∘ encode is the identity on records whose label
is exactly 12 bytes and keycodes exactly 16 bytes (the fixed wire widths)
and whose numeric fields are within their declared ranges; for shorter
label or keycodes the decoded record is instead the original with those
fields zero-padded to 12 and 16 bytes. -/
theorem c1_roundtrip_exact (c : ArcinConfig) (hl : c.label.length = 12)
    (hk : c.keycodes.length = 16) (hv : packOk c = true) :
    (pack_conf c).bind parse_device = some c := by
  obtain ⟨lab, fl, q1, q2, db, kc, rss, rbb, rf, rr, rg, rb, rd, rr2, rg2, rb2,
    rr3, rg3, rb3, rm, rn, ris, rib, rts, rmo⟩ := c
  obtain ⟨a0, a1, a2, a3, a4, a5, a6, a7, a8, a9, a10, a11, rfl⟩ :=
    exists_len12 lab hl
  obtain ⟨k0, k1, k2, k3, k4, k5, k6, k7, k8, k9, k10, k11, k12, k13, k14, k15,
    rfl⟩ := exists_len16 kc hk
  have hfacts := hv
  simp only [packOk, Bool.and_eq_true, decide_eq_true_eq] at hfacts
  rw [pack_cons_explicit hv]
  simp only [Option.some_bind]
  rw [parse_cons_explicit]
  simp only [Option.some.injEq, ArcinConfig.mk.injEq]
  and_intros <;> first
    | trivial
    | omega
    | exact sbyte_roundtrip q1 (by omega) (by omega)
    | exact sbyte_roundtrip q2 (by omega) (by omega)
    | exact sbyte_roundtrip rts (by omega) (by omega)

/-- C1 witness: a record with full-width label and keycodes and in-range
numeric fields round-trips exactly. -/
theorem c1_roundtrip_exact_witness :
    confExact.label.length = 12 ∧ confExact.keycodes.length = 16 ∧
    packOk confExact = true ∧
    (pack_conf confExact).bind parse_device = some confExact :=
  ⟨by decide, by decide, by decide,
   c1_roundtrip_exact confExact (by decide) (by decide) (by decide)⟩

/-- C6 is false as stated: a record whose label is 13 bytes long (within
range everywhere else) still encodes successfully — the save path slices
the label and struct.pack truncates the `12s` field, so no format error
is raised. -/
theorem c6_oversized_label_still_encodes :
    confLongLabel.label.length = 13 ∧ packOk confLongLabel = true ∧
    (pack_conf confLongLabel).isSome = true := by
  refine ⟨by decide, by decide, by decide⟩

/-- C6 (amended): oversized label or keycodes never cause a format
error — encoding a record equals encoding it with the label truncated to
its first 12 bytes and the keycodes to their first 16 bytes.  Encoding
fails only when a numeric field is outside its struct range, and such a
failure is reported ("Format error") with no device I/O at all: nothing
is opened, sent, or closed. -/
theorem c6_format_error_before_io (c : ArcinConfig) (dev : WriteDevice) :
    (pack_conf { c with label := c.label.take 12 } = pack_conf c) ∧
    (pack_conf { c with keycodes := c.keycodes.take 16 } = pack_conf c) ∧
    (pack_conf c = none →
      save_to_device dev c =
        { ok := false, message := "Format error", sent := [], opened := false,
          closes := 0 }) := by
  refine ⟨?_, ?_, ?_⟩
  · simp [pack_conf, packOk, padTrunc_take]
  · simp [pack_conf, packOk, padTrunc_take]
  · intro h
    unfold save_to_device
    rw [h]

/-- C6 witness: a flags value outside 32 bits makes encoding fail and
the save path return the format error without touching the device. -/
theorem c6_format_error_before_io_witness :
    pack_conf confBadFlags = none ∧
    save_to_device devAllOk confBadFlags =
      { ok := false, message := "Format error", sent := [], opened := false,
        closes := 0 } :=
  ⟨by decide, (c6_format_error_before_io confBadFlags devAllOk).2.2 (by decide)⟩

/-- Helper: once the record packs successfully, save_to_device is the
nested transport conditional. -/
theorem save_to_device_some (dev : WriteDevice) (c : ArcinConfig)
    (p : List Nat) (he : pack_conf c = some p) :
    save_to_device dev c =
      if dev.openOk then
        if dev.send1Ok then
          if dev.send2Ok then
            { ok := true, message := "Success",
              sent := [config_report p, [0xb0, 0x20]], opened := true,
              closes := 1 }
          else
            { ok := false, message := "Failed to write to device",
              sent := [config_report p], opened := true, closes := 1 }
        else
          { ok := false, message := "Failed to write to device",
            sent := [], opened := true, closes := 1 }
      else
        { ok := false, message := "Failed to write to device",
          sent := [], opened := false, closes := 1 } := by
  unfold save_to_device
  rw [he]

/-- C3: when the record encodes to payload p, a fully successful session
delivers exactly two feature reports in order — first the 64-byte report
0xC0, 0x00, 0x3C, 0x00 followed by the 60-byte payload, then the restart
report [0xB0, 0x20] — and returns success; if the first send fails the
restart report is never delivered; and a failure at either send makes the
write return failure with the transport error message. -/
theorem c3_write_sequence (dev : WriteDevice) (c : ArcinConfig) (p : List Nat)
    (he : pack_conf c = some p) :
    (dev.openOk = true → dev.send1Ok = true → dev.send2Ok = true →
      (save_to_device dev c).sent =
        [[0xc0, 0x00, 0x3c, 0x00] ++ p, [0xb0, 0x20]] ∧
      (save_to_device dev c).ok = true ∧
      ([0xc0, 0x00, 0x3c, 0x00] ++ p).length = 64) ∧
    (dev.send1Ok = false → [0xb0, 0x20] ∉ (save_to_device dev c).sent) ∧
    (dev.openOk = true → (dev.send1Ok = false ∨ dev.send2Ok = false) →
      (save_to_device dev c).ok = false ∧
      (save_to_device dev c).message = "Failed to write to device") := by
  have hp : p.length = 60 := pack_conf_length c p he
  have hcr : config_report p = [0xc0, 0x00, 0x3c, 0x00] ++ p := by
    simp [config_report, hp]
  rw [save_to_device_some dev c p he]
  refine ⟨?_, ?_, ?_⟩
  · intro h1 h2 h3
    simp [h1, h2, h3, hcr, hp]
  · intro h1
    cases ho : dev.openOk <;> simp [h1, ho]
  · rintro h1 (h | h)
    · cases h2 : dev.send1Ok <;> cases h3 : dev.send2Ok <;> simp_all
    · cases h2 : dev.send1Ok <;> cases h3 : dev.send2Ok <;> simp_all

/-- C3 witness: saving confZero over a fully working transport delivers
the framed zero payload and then the restart report. -/
theorem c3_write_sequence_witness :
    pack_conf confZero = some (List.replicate 60 0) ∧
    (save_to_device devAllOk confZero).sent =
      [[0xc0, 0x00, 0x3c, 0x00] ++ List.replicate 60 0, [0xb0, 0x20]] ∧
    (save_to_device devAllOk confZero).ok = true :=
  ⟨by decide,
   ((c3_write_sequence devAllOk confZero (List.replicate 60 0) (by decide)).1
      rfl rfl rfl).1,
   ((c3_write_sequence devAllOk confZero (List.replicate 60 0) (by decide)).1
      rfl rfl rfl).2.1⟩

/-- C9: the read session closes the handle exactly once on every path
and yields no record if open fails or if any enumerated 0xC0 report
fails to fetch or parse; and whenever the record encodes, the write
session also closes the handle exactly once whether it succeeds or hits
a transport failure. -/
theorem c9_session_cleanup (rdev : ReadDevice) (wdev : WriteDevice)
    (c : ArcinConfig) :
    (load_from_device rdev).closes = 1 ∧
    (rdev.openOk = false → (load_from_device rdev).result = none) ∧
    ((∃ r ∈ rdev.reports, r.id = 0xc0 ∧ report_raises r = true) →
      (load_from_device rdev).result = none) ∧
    ((pack_conf c).isSome = true → (save_to_device wdev c).closes = 1) := by
  refine ⟨?_, ?_, ?_, ?_⟩
  · cases ho : rdev.openOk
    · simp [load_from_device, ho]
    · cases hpr : process_reports none rdev.reports <;>
        simp [load_from_device, ho, hpr]
  · intro h
    simp [load_from_device, h]
  · intro hex
    have hnone := process_reports_none rdev.reports none hex
    cases ho : rdev.openOk <;> simp [load_from_device, ho, hnone]
  · intro hs
    obtain ⟨p, hp⟩ := Option.isSome_iff_exists.1 hs
    rw [save_to_device_some wdev c p hp]
    cases h1 : wdev.openOk <;> cases h2 : wdev.send1Ok <;>
      cases h3 : wdev.send2Ok <;> simp [h1, h2, h3]

/-- C9 witness: an open failure and a short 0xC0 report both yield no
record (with the handle closed once), and a write whose restart send
fails still closes once. -/
theorem c9_session_cleanup_witness :
    (load_from_device rdevOpenFails).result = none ∧
    (load_from_device rdevShortReport).result = none ∧
    (load_from_device rdevShortReport).closes = 1 ∧
    (save_to_device devSend2Fails confZero).closes = 1 :=
  ⟨(c9_session_cleanup rdevOpenFails devAllOk confZero).2.1 rfl,
   (c9_session_cleanup rdevShortReport devAllOk confZero).2.2.1 (by decide),
   (c9_session_cleanup rdevShortReport devAllOk confZero).1,
   (c9_session_cleanup rdevShortReport devSend2Fails confZero).2.2.2 (by decide)⟩
